import Mathlib

/-!
Verification of the labelmaker repository (src/generate_label.py,
src/tape_label.py, src/labelmaker.py).

The layout engine is embedded shallowly:
- reportlab text-width measurement (Canvas.stringWidth for font
  Helvetica-Bold) is an external collaborator and is modelled as an
  abstract parameter sw : String → ℚ → ℚ taking the text and the font
  size in points to a width in points;
- the reportlab canvas is modelled as an explicit state: current page
  size, current font, the draw operations of the page under
  construction, and the list of already emitted pages.  showPage emits
  the current operations as one page stamped with the current page
  size (as reportlab does) and clears them;
- Python floats are idealised as rationals; Python ints as naturals.
-/

namespace Labelmaker

/-- Python whitespace class (the ASCII part of the regex class used by
the pattern, and of str.strip). -/
def isSpaceChar (c : Char) : Bool :=
  c = ' ' || c = '\t' || c = '\n' || c = '\r' || c = '\x0b' || c = '\x0c'

/-- Python str.strip with no argument: drop leading and trailing
whitespace. -/
def pyStrip (s : List Char) : List Char :=
  ((s.dropWhile isSpaceChar).reverse.dropWhile isSpaceChar).reverse

/-- Python str.upper restricted to ASCII letters (the tokens compared
against are the ASCII strings S, M, L). -/
def pyUpper (s : String) : String :=
  String.mk (s.data.map Char.toUpper)

/-- Fuel-driven worker for `pyReplaceDel`.  Each step either removes a
leftmost occurrence of `old` or keeps one character, exactly as Python
str.replace scans left to right over non-overlapping occurrences. -/
def replaceDelAux (old : List Char) : Nat → List Char → List Char
  | _, [] => []
  | 0, s => s
  | fuel + 1, c :: rest =>
    if old.isPrefixOf (c :: rest) then
      replaceDelAux old fuel ((c :: rest).drop old.length)
    else
      c :: replaceDelAux old fuel rest

/-- Python s.replace(old, ...) with the empty replacement string: every
non-overlapping occurrence of `old` is removed, scanning left to
right.  This embeds label.replace(url, ...) in src/labelmaker.py main
(line 142). -/
def pyReplaceDel (s old : List Char) : List Char :=
  replaceDelAux old s.length s

/-- Modelled from the words of the claim, for refinement comparison
only (it is NOT what the source does): remove only the first
occurrence of `old` from `s`. -/
def removeFirstOcc (s old : List Char) : List Char :=
  match s with
  | [] => []
  | c :: rest =>
    if old.isPrefixOf (c :: rest) then (c :: rest).drop old.length
    else c :: removeFirstOcc rest old

/-- The characters of the scheme alternative with the optional s
present in the regex of src/labelmaker.py is_url (line 117). -/
def httpsScheme : List Char := "https://".data

/-- The characters of the scheme alternative with the optional s
absent. -/
def httpScheme : List Char := "http://".data

/-- One attempt of the regex (https?://[^\s]+) at a fixed start
position: the scheme must be a leading run, followed by a nonempty
maximal run of non-whitespace.  At one position the two scheme
alternatives are mutually exclusive, and the plus is greedy. -/
def matchUrlAt (s : List Char) : Option (List Char) :=
  if httpsScheme.isPrefixOf s then
    let run := (s.drop httpsScheme.length).takeWhile (fun c => !(isSpaceChar c))
    if run = [] then none else some (httpsScheme ++ run)
  else if httpScheme.isPrefixOf s then
    let run := (s.drop httpScheme.length).takeWhile (fun c => !(isSpaceChar c))
    if run = [] then none else some (httpScheme ++ run)
  else none

/-- re.search scanning: try every start position left to right and
return the first match. -/
def findUrl : List Char → Option (List Char)
  | [] => none
  | c :: rest =>
    match matchUrlAt (c :: rest) with
    | some u => some u
    | none => findUrl rest

/-- src/labelmaker.py is_url (lines 115-118): search the string for
the URL pattern; the returned value models match.group(0). -/
def is_url (s : String) : Option String :=
  (findUrl s.data).map (fun l => String.mk l)

/-- The displayed text derived in src/labelmaker.py main (line 142):
label.replace(url, ...).strip(). -/
def displayText (label url : String) : String :=
  String.mk (pyStrip (pyReplaceDel label.data url.data))

/-- src/labelmaker.py main (lines 139-143) restricted to the derived
label-request data: the displayed text and the optional extracted
URL. -/
def extract_url (label : String) : String × Option String :=
  match is_url label with
  | some url => (displayText label url, some url)
  | none => (label, none)

/-- reportlab.lib.units.mm: one millimetre in points, 72 / 25.4. -/
def mm : ℚ := 72 / 25.4

/-- reportlab.lib.pagesizes.landscape: reorder a page size so the
width is the larger coordinate. -/
def landscape (p : ℚ × ℚ) : ℚ × ℚ :=
  (max p.1 p.2, min p.1 p.2)

/-- reportlab default page size A4 = (210 mm, 297 mm), used when
canvas.Canvas is built without a pagesize argument, as in
src/labelmaker.py main (line 137). -/
def defaultPageSize : ℚ × ℚ := (210 * mm, 297 * mm)

/-- A drawing operation recorded on a page: either text drawn at a
position with a font and size, or an image (the QR bitmap, identified
by its payload) drawn at a position with a width and height. -/
inductive DrawOp where
  | str (x y : ℚ) (text : String) (font : String) (size : ℚ)
  | img (data : String) (x y w h : ℚ)
deriving DecidableEq

/-- One emitted page: its size and its drawing operations. -/
structure Page where
  size : ℚ × ℚ
  ops : List DrawOp
deriving DecidableEq

/-- The reportlab canvas state: current page size, current font name
and size, operations of the page under construction, and the emitted
pages. -/
structure Canvas where
  pageSize : ℚ × ℚ
  fontName : String
  fontSize : ℚ
  ops : List DrawOp
  pages : List Page
deriving DecidableEq

/-- canvas.Canvas(filename, pagesize=ps): fresh canvas with the given
page size and the default font state. -/
def Canvas.new (ps : ℚ × ℚ) : Canvas :=
  { pageSize := ps, fontName := "Helvetica", fontSize := 12, ops := [], pages := [] }

/-- canvas.setPageSize: changes the size used for pages emitted from
now on. -/
def Canvas.setPageSize (c : Canvas) (ps : ℚ × ℚ) : Canvas :=
  { c with pageSize := ps }

/-- canvas.setFont. -/
def Canvas.setFont (c : Canvas) (name : String) (size : ℚ) : Canvas :=
  { c with fontName := name, fontSize := size }

/-- canvas.drawString: record a text operation with the current
font. -/
def Canvas.drawString (c : Canvas) (x y : ℚ) (t : String) : Canvas :=
  { c with ops := c.ops ++ [DrawOp.str x y t c.fontName c.fontSize] }

/-- canvas.drawImage: record an image operation. -/
def Canvas.drawImage (c : Canvas) (data : String) (x y w h : ℚ) : Canvas :=
  { c with ops := c.ops ++ [DrawOp.img data x y w h] }

/-- canvas.showPage: emit the accumulated operations as one page
stamped with the current page size; the page size persists, the
graphics state resets. -/
def Canvas.showPage (c : Canvas) : Canvas :=
  { pageSize := c.pageSize, fontName := "Helvetica", fontSize := 12,
    ops := [], pages := c.pages ++ [{ size := c.pageSize, ops := c.ops }] }

/-- src/labelmaker.py calculate_text_width (lines 74-79) and
src/tape_label.py calculate_text_width (lines 36-41): the temporary
canvas only forwards to the external stringWidth collaborator `sw`
for the font Helvetica-Bold. -/
def calculate_text_width (sw : String → ℚ → ℚ) (text : String) (font_size : ℚ) : ℚ :=
  sw text font_size

/-- The while loop of determine_font_size, structurally recursive in
the current candidate size: while font_size > 6, break when the
measured width fits within width - 10, else decrement. -/
def fitLoop (sw : String → ℚ → ℚ) (text : String) (width : ℚ) : Nat → Nat
  | 0 => 0
  | n + 1 =>
    if 6 < n + 1 then
      if sw text ((n + 1 : Nat) : ℚ) ≤ width - 10 then n + 1
      else fitLoop sw text width n
    else n + 1

/-- determine_font_size, identical in src/generate_label.py (lines
29-44) and src/labelmaker.py (lines 60-72): start at 72, decrement
while the text does not fit within width - 10, stop at 6, and return
max(font_size, 6).  The height argument is unused, as in the
source. -/
def determine_font_size (sw : String → ℚ → ℚ) (text : String) (width height : ℚ) : Nat :=
  max (fitLoop sw text width 72) 6

/-- The size-token lookup font_sizes.get(tok.upper(), 12) over the
mapping S to 8, M to 12, L to 18, shared by src/labelmaker.py
(lines 32-33 and 139-140) and src/tape_label.py (lines 8-9). -/
def font_sizes_get (tok : String) : Nat :=
  if pyUpper tok = "S" then 8
  else if pyUpper tok = "M" then 12
  else if pyUpper tok = "L" then 18
  else 12

/-- src/labelmaker.py generate_dymo_label (lines 12-29): compute the
Dymo dimensions with landscape, pick the font size by shrink-to-fit,
draw the text centered against those dimensions, and emit the page.
Note that the canvas page size is never changed here. -/
def generate_dymo_label (sw : String → ℚ → ℚ) (pdf : Canvas) (text : String) : Canvas :=
  let wh := landscape (153, 72)
  let font_size : ℚ := (determine_font_size sw text wh.1 wh.2 : Nat)
  let pdf := pdf.setFont "Helvetica-Bold" font_size
  let text_width := sw text font_size
  let pdf := pdf.drawString ((wh.1 - text_width) / 2) ((wh.2 - font_size) / 2) text
  pdf.showPage

/-- src/labelmaker.py generate_ptouch_label (lines 31-58): resolve the
size token, compute the total width (reserving 40 + 10 points when a
QR code follows), set the page size to (total, 12 mm), draw the text
at x = 5 vertically centered, and emit the page only when no QR code
is coming. -/
def generate_ptouch_label (sw : String → ℚ → ℚ) (pdf : Canvas) (text : String)
    (font_size_tok : String) (has_qr_code : Bool) : Canvas :=
  let font_size : ℚ := (font_sizes_get font_size_tok : Nat)
  let text_width := calculate_text_width sw text font_size + 10
  let qr_padding : ℚ := 10
  let qr_code_width : ℚ := if has_qr_code then 40 + qr_padding else 0
  let total_width := text_width + qr_code_width
  let pdf := pdf.setPageSize (total_width, 12 * mm)
  let pdf := pdf.setFont "Helvetica-Bold" font_size
  let text_y := (12 * mm - font_size) / 2
  let pdf := pdf.drawString 5 text_y text
  if has_qr_code then pdf else pdf.showPage

/-- src/labelmaker.py add_qr_code_to_pdf (lines 81-113): the QR bitmap
for the URL comes from the external qrcode collaborator and is
identified here by its payload; it is drawn at x = text_width + 10,
vertically centered on the 12 mm tape, sized 40 by 40, and the page is
then emitted.  The total_width argument is accepted and unused, as in
the source. -/
def add_qr_code_to_pdf (pdf : Canvas) (url : String) (text_width total_width : ℚ) : Canvas :=
  let qr_size : ℚ := 40
  let qr_padding : ℚ := 10
  let qr_code_x := text_width + qr_padding
  let qr_code_y := (12 * mm - qr_size) / 2
  let pdf := pdf.drawImage url qr_code_x qr_code_y qr_size qr_size
  pdf.showPage

/-- The printer choice of the CLI of src/labelmaker.py. -/
inductive Printer where
  | dymo
  | ptouch
deriving DecidableEq

/-- One iteration of the label loop of src/labelmaker.py main (lines
139-156): detect a URL, derive the displayed text, and dispatch on the
printer; on ptouch with a URL the text page is left open and the QR
step closes it, receiving the text width measured without padding. -/
def processLabel (sw : String → ℚ → ℚ) (printer : Printer) (size : String)
    (pdf : Canvas) (label : String) : Canvas :=
  match is_url label with
  | some url =>
    let text := displayText label url
    match printer with
    | Printer.dymo => generate_dymo_label sw pdf text
    | Printer.ptouch =>
      let font_size : ℚ := (font_sizes_get size : Nat)
      let text_width := calculate_text_width sw text font_size
      let qr_code_width : ℚ := 40 + 10
      let total_width := text_width + qr_code_width
      let pdf := generate_ptouch_label sw pdf text size true
      add_qr_code_to_pdf pdf url text_width total_width
  | none =>
    match printer with
    | Printer.dymo => generate_dymo_label sw pdf label
    | Printer.ptouch => generate_ptouch_label sw pdf label size false

namespace GenerateLabel

/-- src/generate_label.py generate_label_pdf (lines 6-27): a fresh
canvas is created with pagesize landscape (153, 72), the font size is
chosen by shrink-to-fit, the text is drawn centered both ways, and the
page is emitted.  The save step is file output and out of scope. -/
def generate_label_pdf (sw : String → ℚ → ℚ) (text : String) : Canvas :=
  let wh := landscape (153, 72)
  let pdf := Canvas.new wh
  let font_size : ℚ := (determine_font_size sw text wh.1 wh.2 : Nat)
  let pdf := pdf.setFont "Helvetica-Bold" font_size
  let text_width := sw text font_size
  let pdf := pdf.drawString ((wh.1 - text_width) / 2) ((wh.2 - font_size) / 2) text
  pdf.showPage

end GenerateLabel

namespace TapeLabel

/-- src/tape_label.py generate_label_pdf (lines 6-34): resolve the
size token, create a fresh canvas of width sw(text) + 10 and height
12 mm, and draw the text at x = 5 with the improved vertical
centering y = (height - font_size + 4) / 2 of that revision. -/
def generate_label_pdf (sw : String → ℚ → ℚ) (text : String) (font_size_tok : String) : Canvas :=
  let font_size : ℚ := (font_sizes_get font_size_tok : Nat)
  let width := calculate_text_width sw text font_size + 10
  let height := 12 * mm
  let pdf := Canvas.new (width, height)
  let pdf := pdf.setFont "Helvetica-Bold" font_size
  let text_height := font_size
  let text_y := (height - text_height + 4) / 2
  let pdf := pdf.drawString 5 text_y text
  pdf.showPage

end TapeLabel

/-- A concrete width collaborator used for witnesses: six tenths of
the font size per character, roughly the Helvetica-Bold average. -/
def swDemo (t : String) (s : ℚ) : ℚ := (t.length : ℚ) * s * 6 / 10

end Labelmaker

namespace Labelmaker

theorem fitLoop_spec (sw : String → ℚ → ℚ) (t : String) (W : ℚ) :
    ∀ fs : Nat, 6 ≤ fs →
      6 ≤ fitLoop sw t W fs ∧ fitLoop sw t W fs ≤ fs ∧
      (sw t ((fitLoop sw t W fs : Nat) : ℚ) ≤ W - 10 ∨ fitLoop sw t W fs = 6) ∧
      ∀ s : Nat, fitLoop sw t W fs < s → s ≤ fs → ¬ sw t ((s : Nat) : ℚ) ≤ W - 10 := by
  intro fs
  induction fs with
  | zero => intro h; exact absurd h (by decide)
  | succ n ih =>
    intro h6
    by_cases h1 : 6 < n + 1
    · by_cases h2 : sw t ((n + 1 : Nat) : ℚ) ≤ W - 10
      · have hr : fitLoop sw t W (n + 1) = n + 1 := by
          simp only [fitLoop, if_pos h1, if_pos h2]
        rw [hr]
        exact ⟨h6, le_refl _, Or.inl h2, fun s hs1 hs2 => absurd (lt_of_lt_of_le hs1 hs2) (lt_irrefl _)⟩
      · have hr : fitLoop sw t W (n + 1) = fitLoop sw t W n := by
          simp only [fitLoop, if_pos h1, if_neg h2]
        have h6n : 6 ≤ n := by omega
        obtain ⟨ih1, ih2, ih3, ih4⟩ := ih h6n
        rw [hr]
        refine ⟨ih1, by omega, ih3, ?_⟩
        intro s hs1 hs2
        rcases Nat.lt_or_ge s (n + 1) with hlt | hge
        · exact ih4 s hs1 (by omega)
        · have hs : s = n + 1 := by omega
          rw [hs]
          exact h2
    · have hn : n + 1 = 6 := by omega
      have hr : fitLoop sw t W (n + 1) = n + 1 := by
        simp only [fitLoop, if_neg h1]
      rw [hr]
      exact ⟨h6, le_refl _, Or.inr hn, fun s hs1 hs2 => by omega⟩

/-- C1: for every width collaborator, text and fixed-medium width W,
determine_font_size returns a size S with 6 ≤ S ≤ 72 such that the
measured width at S fits within W - 10 or S is the floor 6, and every
size above S that the downward search from 72 tried measures strictly
wider than W - 10; the function is total, so it never raises. -/
theorem determine_font_size_shrink_to_fit (sw : String → ℚ → ℚ) (t : String) (W H : ℚ) :
    6 ≤ determine_font_size sw t W H ∧ determine_font_size sw t W H ≤ 72 ∧
    (sw t ((determine_font_size sw t W H : Nat) : ℚ) ≤ W - 10 ∨
      determine_font_size sw t W H = 6) ∧
    ∀ s : Nat, determine_font_size sw t W H < s → s ≤ 72 →
      ¬ sw t ((s : Nat) : ℚ) ≤ W - 10 := by
  obtain ⟨h1, h2, h3, h4⟩ := fitLoop_spec sw t W 72 (by decide)
  have hmax : determine_font_size sw t W H = fitLoop sw t W 72 := by
    unfold determine_font_size
    exact Nat.max_eq_left h1
  rw [hmax]
  exact ⟨h1, h2, h3, h4⟩

end Labelmaker

namespace Labelmaker

theorem matchUrlAt_nil : matchUrlAt [] = none := by
  decide

theorem findUrl_none_iff (s : List Char) :
    findUrl s = none ↔ ∀ i : Nat, matchUrlAt (List.drop i s) = none := by
  induction s with
  | nil =>
    constructor
    · intro _ i
      rw [List.drop_nil]
      exact matchUrlAt_nil
    · intro _
      rfl
  | cons c rest ih =>
    cases hm : matchUrlAt (c :: rest) with
    | some u =>
      constructor
      · intro h
        rw [findUrl, hm] at h
        exact absurd h (by simp)
      · intro h
        have h0 := h 0
        rw [List.drop_zero] at h0
        rw [hm] at h0
        exact absurd h0 (by simp)
    | none =>
      rw [findUrl, hm, ih]
      constructor
      · intro h i
        cases i with
        | zero =>
          rw [List.drop_zero]
          exact hm
        | succ j =>
          rw [List.drop_succ_cons]
          exact h j
      · intro h i
        have := h (i + 1)
        rw [List.drop_succ_cons] at this
        exact this

theorem findUrl_some_first (s u : List Char) (h : findUrl s = some u) :
    ∃ i : Nat, matchUrlAt (List.drop i s) = some u ∧
      ∀ j : Nat, j < i → matchUrlAt (List.drop j s) = none := by
  induction s with
  | nil => exact absurd h (by simp [findUrl])
  | cons c rest ih =>
    cases hm : matchUrlAt (c :: rest) with
    | some v =>
      rw [findUrl, hm] at h
      refine ⟨0, ?_, ?_⟩
      · rw [List.drop_zero, hm]
        exact h
      · intro j hj
        exact absurd hj (Nat.not_lt_zero j)
    | none =>
      rw [findUrl, hm] at h
      obtain ⟨i, h1, h2⟩ := ih h
      refine ⟨i + 1, ?_, ?_⟩
      · rw [List.drop_succ_cons]
        exact h1
      · intro j hj
        cases j with
        | zero =>
          rw [List.drop_zero]
          exact hm
        | succ k =>
          rw [List.drop_succ_cons]
          exact h2 k (by omega)

theorem matchUrlAt_shape (s u : List Char) (h : matchUrlAt s = some u) :
    ∃ r : List Char, r ≠ [] ∧ (∀ ch ∈ r, isSpaceChar ch = false) ∧
      (u = httpsScheme ++ r ∨ u = httpScheme ++ r) := by
  unfold matchUrlAt at h
  by_cases hp1 : httpsScheme.isPrefixOf s
  · rw [if_pos hp1] at h
    by_cases hr1 : List.takeWhile (fun c => !(isSpaceChar c)) (List.drop httpsScheme.length s) = []
    · rw [if_pos hr1] at h
      exact absurd h (by simp)
    · rw [if_neg hr1] at h
      simp only [Option.some.injEq] at h
      refine ⟨_, hr1, ?_, Or.inl h.symm⟩
      intro ch hch
      have := List.mem_takeWhile_imp hch
      simpa using this
  · rw [if_neg hp1] at h
    by_cases hp2 : httpScheme.isPrefixOf s
    · rw [if_pos hp2] at h
      by_cases hr2 : List.takeWhile (fun c => !(isSpaceChar c)) (List.drop httpScheme.length s) = []
      · rw [if_pos hr2] at h
        exact absurd h (by simp)
      · rw [if_neg hr2] at h
        simp only [Option.some.injEq] at h
        refine ⟨_, hr2, ?_, Or.inr h.symm⟩
        intro ch hch
        have := List.mem_takeWhile_imp hch
        simpa using this
    · rw [if_neg hp2] at h
      exact absurd h (by simp)

end Labelmaker

namespace Labelmaker

/-- C2 (evidence of the code bug): the single-label tool emits its
Dymo page at exactly (153, 72) points, but the multi-label tool
(processLabel with the dymo printer) emits every Dymo page at the
reportlab default page size A4, because generate_dymo_label never sets
the canvas page size; A4 is not (153, 72). -/
theorem dymo_page_default_size_bug (sw : String → ℚ → ℚ) (t : String) :
    (GenerateLabel.generate_label_pdf sw t).pages.map Page.size = [((153 : ℚ), (72 : ℚ))]
  ∧ (processLabel sw Printer.dymo "M" (Canvas.new defaultPageSize) t).pages.map Page.size
      = [defaultPageSize]
  ∧ defaultPageSize ≠ ((153 : ℚ), (72 : ℚ)) := by
  have hmax : max (153 : ℚ) 72 = 153 := by norm_num
  have hmin : min (153 : ℚ) 72 = 72 := by norm_num
  refine ⟨?_, ?_, ?_⟩
  · simp [GenerateLabel.generate_label_pdf, landscape, hmax, hmin, Canvas.new,
      Canvas.setFont, Canvas.drawString, Canvas.showPage]
  · cases hu : is_url t with
    | some url =>
      simp [processLabel, hu, generate_dymo_label, Canvas.new, Canvas.setFont,
        Canvas.drawString, Canvas.showPage]
    | none =>
      simp [processLabel, hu, generate_dymo_label, Canvas.new, Canvas.setFont,
        Canvas.drawString, Canvas.showPage]
  · norm_num [defaultPageSize, mm]

/-- C3 (counterexample): the claim says every implementation of the
variable-width layout draws the text at y = (pageHeight - fontSize) / 2,
but src/tape_label.py draws at y = (pageHeight - fontSize + 4) / 2; at
font size 12 on the 12 mm tape the two values differ. -/
theorem tape_label_vertical_offset_counterexample :
    (TapeLabel.generate_label_pdf (fun _ s => s) "A" "M").pages
      = [{ size := (22, 12 * mm),
           ops := [DrawOp.str 5 ((12 * mm - 8) / 2) "A" "Helvetica-Bold" 12] }]
  ∧ (12 * mm - 8) / 2 ≠ ((12 * mm - 12) / 2 : ℚ) := by
  have hM : font_sizes_get "M" = 12 := by decide
  constructor
  · simp [TapeLabel.generate_label_pdf, calculate_text_width, Canvas.new, Canvas.setFont,
      Canvas.drawString, Canvas.showPage, hM]
    ring_nf
    simp
  · norm_num [mm]

/-- C3 (amended): both fixed-medium implementations draw the text at
x = (153 - textWidth) / 2, y = (72 - fontSize) / 2; the variable-width
layouts draw left-aligned at x = 5, with y = (pageHeight - fontSize) / 2
in src/labelmaker.py generate_ptouch_label but
y = (pageHeight - fontSize + 4) / 2 in src/tape_label.py. -/
theorem text_draw_positions (sw : String → ℚ → ℚ) (t tok : String) (c : Canvas) :
    (GenerateLabel.generate_label_pdf sw t).pages
      = [{ size := (153, 72),
           ops := [DrawOp.str ((153 - sw t (determine_font_size sw t 153 72 : ℚ)) / 2)
                     ((72 - (determine_font_size sw t 153 72 : ℚ)) / 2) t
                     "Helvetica-Bold" (determine_font_size sw t 153 72 : ℚ)] }]
  ∧ (generate_dymo_label sw c t).pages
      = c.pages ++
        [{ size := c.pageSize,
           ops := c.ops ++ [DrawOp.str ((153 - sw t (determine_font_size sw t 153 72 : ℚ)) / 2)
                     ((72 - (determine_font_size sw t 153 72 : ℚ)) / 2) t
                     "Helvetica-Bold" (determine_font_size sw t 153 72 : ℚ)] }]
  ∧ (generate_ptouch_label sw c t tok false).pages
      = c.pages ++
        [{ size := (sw t (font_sizes_get tok : ℚ) + 10, 12 * mm),
           ops := c.ops ++ [DrawOp.str 5 ((12 * mm - (font_sizes_get tok : ℚ)) / 2) t
                     "Helvetica-Bold" (font_sizes_get tok : ℚ)] }]
  ∧ (TapeLabel.generate_label_pdf sw t tok).pages
      = [{ size := (sw t (font_sizes_get tok : ℚ) + 10, 12 * mm),
           ops := [DrawOp.str 5 ((12 * mm - (font_sizes_get tok : ℚ) + 4) / 2) t
                     "Helvetica-Bold" (font_sizes_get tok : ℚ)] }] := by
  have hmax : max (153 : ℚ) 72 = 153 := by norm_num
  have hmin : min (153 : ℚ) 72 = 72 := by norm_num
  refine ⟨?_, ?_, ?_, ?_⟩
  · simp [GenerateLabel.generate_label_pdf, landscape, hmax, hmin, Canvas.new,
      Canvas.setFont, Canvas.drawString, Canvas.showPage]
  · simp [generate_dymo_label, landscape, hmax, hmin, Canvas.setFont,
      Canvas.drawString, Canvas.showPage]
  · simp [generate_ptouch_label, calculate_text_width, Canvas.setPageSize, Canvas.setFont,
      Canvas.drawString, Canvas.showPage]
  · simp [TapeLabel.generate_label_pdf, calculate_text_width, Canvas.new, Canvas.setFont,
      Canvas.drawString, Canvas.showPage]

end Labelmaker

namespace Labelmaker

/-- C4: for a label with an extracted URL on the ptouch medium the
page width is measured width of the display text plus 10 (padding)
plus 40 (QR size) plus 10 (QR padding), the page height is 12 mm, the
text is drawn at x = 5, and the QR glyph of the URL is drawn at
x = measured width + 10, y = (12 mm - 40) / 2, sized 40 by 40, on that
same page. -/
theorem ptouch_url_page_and_qr_geometry (sw : String → ℚ → ℚ) (size : String) (c : Canvas)
    (label url : String) (h : is_url label = some url) :
    (processLabel sw Printer.ptouch size c label).pages
      = c.pages ++
        [{ size := (sw (displayText label url) (font_sizes_get size : ℚ) + 10 + 40 + 10, 12 * mm),
           ops := c.ops ++
             [DrawOp.str 5 ((12 * mm - (font_sizes_get size : ℚ)) / 2) (displayText label url)
                "Helvetica-Bold" (font_sizes_get size : ℚ),
              DrawOp.img url (sw (displayText label url) (font_sizes_get size : ℚ) + 10)
                ((12 * mm - 40) / 2) 40 40] }] := by
  simp [processLabel, h, generate_ptouch_label, add_qr_code_to_pdf, calculate_text_width,
    Canvas.setPageSize, Canvas.setFont, Canvas.drawString, Canvas.drawImage, Canvas.showPage]
  ring_nf

/-- Witness for C4 at a concrete input. -/
theorem ptouch_url_page_and_qr_geometry_witness :
    ((processLabel (fun _ s => s) Printer.ptouch "M" (Canvas.new defaultPageSize)
        "box http://x").pages).length = 1 := by
  rw [ptouch_url_page_and_qr_geometry (fun _ s => s) "M" (Canvas.new defaultPageSize)
    "box http://x" "http://x" (by decide)]
  simp [Canvas.new]

/-- C5 (counterexample): on the input that contains the same URL
twice, the code removes every occurrence (str.replace), giving the
empty display text, while removing only the matched first substring
and trimming would give a display text still holding the URL once. -/
theorem extract_url_all_occurrences_counterexample :
    extract_url "http://a http://a" = ("", some "http://a")
  ∧ String.mk (pyStrip (removeFirstOcc ("http://a http://a").data ("http://a").data))
      = "http://a"
  ∧ ("" : String) ≠ "http://a" := by
  decide

/-- C5 (amended): URL extraction scans left to right for the first
position matching http:// or https:// followed by a nonempty run of
non-whitespace; with no match the text is returned unchanged with no
URL; with a match the returned URL is that first match (shaped scheme
plus nonempty non-whitespace run), and the display text is the input
with every occurrence of the matched URL string removed and the result
trimmed of surrounding whitespace. -/
theorem extract_url_characterization (label : String) :
    ((extract_url label).2 = none →
        extract_url label = (label, none)
      ∧ ∀ i : Nat, matchUrlAt (List.drop i label.data) = none)
  ∧ ∀ url : String, (extract_url label).2 = some url →
        (extract_url label).1 = String.mk (pyStrip (pyReplaceDel label.data url.data))
      ∧ (∃ i : Nat, matchUrlAt (List.drop i label.data) = some url.data
           ∧ ∀ j : Nat, j < i → matchUrlAt (List.drop j label.data) = none)
      ∧ ∃ r : List Char, r ≠ [] ∧ (∀ ch ∈ r, isSpaceChar ch = false)
           ∧ (url.data = httpsScheme ++ r ∨ url.data = httpScheme ++ r) := by
  cases hf : findUrl label.data with
  | none =>
    have hiu : is_url label = none := by simp [is_url, hf]
    constructor
    · intro _
      exact ⟨by simp [extract_url, hiu], (findUrl_none_iff label.data).mp hf⟩
    · intro url hu
      simp [extract_url, hiu] at hu
  | some u =>
    have hiu : is_url label = some (String.mk u) := by simp [is_url, hf]
    constructor
    · intro hn
      simp [extract_url, hiu] at hn
    · intro url hu
      have hurl : String.mk u = url := by
        simpa [extract_url, hiu] using hu
      have hdata : url.data = u := by
        rw [← hurl]
      refine ⟨?_, ?_, ?_⟩
      · simp [extract_url, hiu, displayText, ← hurl]
      · rw [hdata]
        exact findUrl_some_first label.data u hf
      · rw [hdata]
        obtain ⟨i, h1, _⟩ := findUrl_some_first label.data u hf
        exact matchUrlAt_shape _ u h1

/-- Witness for C5 at concrete inputs, one without and one with a
URL. -/
theorem extract_url_characterization_witness :
    extract_url "plain label" = ("plain label", none)
  ∧ (extract_url "box http://x").1
      = String.mk (pyStrip (pyReplaceDel ("box http://x").data ("http://x").data)) :=
  ⟨((extract_url_characterization "plain label").1 (by decide)).1,
   ((extract_url_characterization "box http://x").2 "http://x" (by decide)).1⟩

/-- C6: one label request appends exactly one page, for every printer
and whether or not a URL is present; and on the ptouch printer with a
URL the single appended page carries both a text operation and the QR
image operation. -/
theorem render_appends_one_page (sw : String → ℚ → ℚ) (pr : Printer) (size : String)
    (c : Canvas) (label : String) :
    (processLabel sw pr size c label).pages.length = c.pages.length + 1
  ∧ ∀ url : String, pr = Printer.ptouch → is_url label = some url →
      ∃ p : Page, (processLabel sw pr size c label).pages = c.pages ++ [p]
        ∧ (∃ x y t f s, DrawOp.str x y t f s ∈ p.ops)
        ∧ (∃ d x y w h, DrawOp.img d x y w h ∈ p.ops) := by
  cases hu : is_url label with
  | some url =>
    cases pr with
    | dymo =>
      refine ⟨?_, ?_⟩
      · simp [processLabel, hu, generate_dymo_label, Canvas.setFont, Canvas.drawString,
          Canvas.showPage]
      · intro url2 hpr
        exact absurd hpr (by simp)
    | ptouch =>
      have key : (processLabel sw Printer.ptouch size c label).pages
          = c.pages ++
            [{ size := (calculate_text_width sw (displayText label url)
                          (font_sizes_get size : ℚ) + 10 + (40 + 10), 12 * mm),
               ops := c.ops ++
                 [DrawOp.str 5 ((12 * mm - (font_sizes_get size : ℚ)) / 2)
                    (displayText label url) "Helvetica-Bold" (font_sizes_get size : ℚ),
                  DrawOp.img url (calculate_text_width sw (displayText label url)
                      (font_sizes_get size : ℚ) + 10) ((12 * mm - 40) / 2) 40 40] }] := by
        simp [processLabel, hu, generate_ptouch_label, add_qr_code_to_pdf,
          calculate_text_width, Canvas.setPageSize, Canvas.setFont, Canvas.drawString,
          Canvas.drawImage, Canvas.showPage]
      refine ⟨?_, ?_⟩
      · rw [key]
        simp
      · intro url2 _ _
        refine ⟨_, key, ?_, ?_⟩
        · exact ⟨5, (12 * mm - (font_sizes_get size : ℚ)) / 2, displayText label url,
            "Helvetica-Bold", (font_sizes_get size : ℚ), by simp⟩
        · exact ⟨url, calculate_text_width sw (displayText label url)
            (font_sizes_get size : ℚ) + 10, (12 * mm - 40) / 2, 40, 40, by simp⟩
  | none =>
    cases pr with
    | dymo =>
      refine ⟨?_, ?_⟩
      · simp [processLabel, hu, generate_dymo_label, Canvas.setFont, Canvas.drawString,
          Canvas.showPage]
      · intro url2 _ hu2
        exact absurd hu2 (by simp)
    | ptouch =>
      refine ⟨?_, ?_⟩
      · simp [processLabel, hu, generate_ptouch_label, calculate_text_width,
          Canvas.setPageSize, Canvas.setFont, Canvas.drawString, Canvas.showPage]
      · intro url2 _ hu2
        exact absurd hu2 (by simp)

/-- Witness for C6 on the ptouch printer with a URL present. -/
theorem render_appends_one_page_witness :
    ((processLabel (fun _ s => s) Printer.ptouch "M" (Canvas.new defaultPageSize)
        "a http://b").pages).length = 1 := by
  have h := (render_appends_one_page (fun _ s => s) Printer.ptouch "M"
    (Canvas.new defaultPageSize) "a http://b").1
  rw [h]
  simp [Canvas.new]

/-- C7: with no URL present, the ptouch page of the multi-label tool
and the page of src/tape_label.py both have width exactly the measured
text width plus 10 and height exactly 12 mm, with no QR
reservation. -/
theorem ptouch_no_url_page_width (sw : String → ℚ → ℚ) (t size : String) (c : Canvas)
    (h : is_url t = none) :
    (processLabel sw Printer.ptouch size c t).pages.map Page.size
      = c.pages.map Page.size ++ [(sw t (font_sizes_get size : ℚ) + 10, 12 * mm)]
  ∧ (TapeLabel.generate_label_pdf sw t size).pages.map Page.size
      = [(sw t (font_sizes_get size : ℚ) + 10, 12 * mm)] := by
  constructor
  · simp [processLabel, h, generate_ptouch_label, calculate_text_width, Canvas.setPageSize,
      Canvas.setFont, Canvas.drawString, Canvas.showPage]
  · simp [TapeLabel.generate_label_pdf, calculate_text_width, Canvas.new, Canvas.setFont,
      Canvas.drawString, Canvas.showPage]

/-- Witness for C7 at a concrete input with no URL. -/
theorem ptouch_no_url_page_width_witness :
    ((processLabel (fun _ s => s) Printer.ptouch "M" (Canvas.new defaultPageSize)
        "hello").pages.map Page.size).length = 1 := by
  have h := (ptouch_no_url_page_width (fun _ s => s) "hello" "M" (Canvas.new defaultPageSize)
    (by decide)).1
  rw [h]
  simp [Canvas.new]

end Labelmaker

namespace Labelmaker

/-- C8: the layout is deterministic: rendering the same label request
twice in a row on a canvas with no pending operations appends two
pages with identical geometry (equal size, font, text position, and
operations). -/
theorem layout_deterministic (sw : String → ℚ → ℚ) (pr : Printer) (size : String)
    (c : Canvas) (label : String) (h : c.ops = []) :
    ∃ p : Page, (processLabel sw pr size (processLabel sw pr size c label) label).pages
      = c.pages ++ [p, p] := by
  have hmax : max (153 : ℚ) 72 = 153 := by norm_num
  have hmin : min (153 : ℚ) 72 = 72 := by norm_num
  cases hu : is_url label with
  | some url =>
    cases pr with
    | dymo =>
      refine ⟨{ size := c.pageSize,
                ops := [DrawOp.str
                  ((153 - sw (displayText label url)
                      (determine_font_size sw (displayText label url) 153 72 : ℚ)) / 2)
                  ((72 - (determine_font_size sw (displayText label url) 153 72 : ℚ)) / 2)
                  (displayText label url) "Helvetica-Bold"
                  (determine_font_size sw (displayText label url) 153 72 : ℚ)] }, ?_⟩
      simp [processLabel, hu, generate_dymo_label, landscape, hmax, hmin, Canvas.setFont,
        Canvas.drawString, Canvas.showPage, h]
    | ptouch =>
      refine ⟨{ size := (calculate_text_width sw (displayText label url)
                    (font_sizes_get size : ℚ) + 10 + (40 + 10), 12 * mm),
                ops := [DrawOp.str 5 ((12 * mm - (font_sizes_get size : ℚ)) / 2)
                    (displayText label url) "Helvetica-Bold" (font_sizes_get size : ℚ),
                  DrawOp.img url (calculate_text_width sw (displayText label url)
                      (font_sizes_get size : ℚ) + 10) ((12 * mm - 40) / 2) 40 40] }, ?_⟩
      simp [processLabel, hu, generate_ptouch_label, add_qr_code_to_pdf, calculate_text_width,
        Canvas.setPageSize, Canvas.setFont, Canvas.drawString, Canvas.drawImage,
        Canvas.showPage, h]
  | none =>
    cases pr with
    | dymo =>
      refine ⟨{ size := c.pageSize,
                ops := [DrawOp.str
                  ((153 - sw label (determine_font_size sw label 153 72 : ℚ)) / 2)
                  ((72 - (determine_font_size sw label 153 72 : ℚ)) / 2)
                  label "Helvetica-Bold" (determine_font_size sw label 153 72 : ℚ)] }, ?_⟩
      simp [processLabel, hu, generate_dymo_label, landscape, hmax, hmin, Canvas.setFont,
        Canvas.drawString, Canvas.showPage, h]
    | ptouch =>
      refine ⟨{ size := (calculate_text_width sw label (font_sizes_get size : ℚ) + 10, 12 * mm),
                ops := [DrawOp.str 5 ((12 * mm - (font_sizes_get size : ℚ)) / 2)
                    label "Helvetica-Bold" (font_sizes_get size : ℚ)] }, ?_⟩
      simp [processLabel, hu, generate_ptouch_label, calculate_text_width,
        Canvas.setPageSize, Canvas.setFont, Canvas.drawString, Canvas.showPage, h]

/-- Witness for C8 on a fresh canvas. -/
theorem layout_deterministic_witness :
    ((processLabel (fun _ s => s) Printer.ptouch "M"
        (processLabel (fun _ s => s) Printer.ptouch "M" (Canvas.new defaultPageSize) "hi")
        "hi").pages).length = 2 := by
  obtain ⟨p, hp⟩ := layout_deterministic (fun _ s => s) Printer.ptouch "M"
    (Canvas.new defaultPageSize) "hi" rfl
  rw [hp]
  simp [Canvas.new]

/-- C9: in the multi-label tool a Dymo label with a URL is rendered
with the URL stripped from the displayed text and no QR image
operation: the only operation on the appended page is the centered
text, so the URL information is dropped. -/
theorem dymo_url_dropped (sw : String → ℚ → ℚ) (size : String) (c : Canvas)
    (label url : String) (h : is_url label = some url) :
    (processLabel sw Printer.dymo size c label).pages
      = c.pages ++
        [{ size := c.pageSize,
           ops := c.ops ++
             [DrawOp.str
                ((153 - sw (displayText label url)
                    (determine_font_size sw (displayText label url) 153 72 : ℚ)) / 2)
                ((72 - (determine_font_size sw (displayText label url) 153 72 : ℚ)) / 2)
                (displayText label url) "Helvetica-Bold"
                (determine_font_size sw (displayText label url) 153 72 : ℚ)] }] := by
  have hmax : max (153 : ℚ) 72 = 153 := by norm_num
  have hmin : min (153 : ℚ) 72 = 72 := by norm_num
  simp [processLabel, h, generate_dymo_label, landscape, hmax, hmin, Canvas.setFont,
    Canvas.drawString, Canvas.showPage]

/-- Witness for C9 at a concrete input; the display text drops the
URL. -/
theorem dymo_url_dropped_witness :
    ((processLabel (fun _ s => s) Printer.dymo "M" (Canvas.new defaultPageSize)
        "box http://x").pages).length = 1
  ∧ displayText "box http://x" "http://x" = "box" := by
  constructor
  · rw [dymo_url_dropped (fun _ s => s) "M" (Canvas.new defaultPageSize)
      "box http://x" "http://x" (by decide)]
    simp [Canvas.new]
  · decide

/-- C10: the size-token lookup factors through upper-casing, so it is
case-insensitive; every token whose upper-cased form is none of S, M,
L resolves to the Medium size 12; and the resolved size is always one
of 8, 12, 18. -/
theorem size_token_lookup (tok tok2 : String) :
    (pyUpper tok = pyUpper tok2 → font_sizes_get tok = font_sizes_get tok2)
  ∧ ((pyUpper tok ≠ "S" ∧ pyUpper tok ≠ "M" ∧ pyUpper tok ≠ "L") → font_sizes_get tok = 12)
  ∧ (font_sizes_get tok = 8 ∨ font_sizes_get tok = 12 ∨ font_sizes_get tok = 18) := by
  refine ⟨?_, ?_, ?_⟩
  · intro h
    unfold font_sizes_get
    rw [h]
  · intro h
    obtain ⟨h1, h2, h3⟩ := h
    unfold font_sizes_get
    rw [if_neg h1, if_neg h2, if_neg h3]
  · unfold font_sizes_get
    split_ifs <;> simp

/-- Witness for C10: lower and upper case tokens agree, an unknown
token resolves to 12, and the three mapped sizes appear. -/
theorem size_token_lookup_witness :
    font_sizes_get "s" = font_sizes_get "S" ∧ font_sizes_get "S" = 8
  ∧ font_sizes_get "size" = 12 ∧ font_sizes_get "l" = 18 :=
  ⟨(size_token_lookup "s" "S").1 (by decide), by decide,
   (size_token_lookup "size" "size").2.1 (by decide), by decide⟩

end Labelmaker

namespace Labelmaker

/-- Witness for C1: with the identity width collaborator and max
width 50 the search lands on 40, and size 41 (one above the result)
does not fit. -/
theorem determine_font_size_shrink_to_fit_witness :
    determine_font_size (fun _ s => s) "hi" 50 72 = 40
  ∧ ¬ (((41 : Nat) : ℚ) ≤ 50 - 10) := by
  have h := determine_font_size_shrink_to_fit (fun _ s => s) "hi" 50 72
  have h40 : determine_font_size (fun _ s => s) "hi" 50 72 = 40 := by
    norm_num [determine_font_size, fitLoop]
  exact ⟨h40, h.2.2.2 41 (by rw [h40]; norm_num) (by norm_num)⟩

end Labelmaker
